import Mathlib

/-!
Shallow embedding of the request-handling and streaming-relay pipeline of the
LLM inference gateway (src/app/main.py, src/app/models.py, src/app/config.py).

Modelling choices:
* Machine floats for `temperature` are modelled as rationals; the only
  operations the code performs on the field are the comparisons `0.0 <= t`
  and `t <= 2.0` and passing the value through, which rationals model exactly
  on every input the claims mention.
* The global `metrics` dict of main.py is modelled by explicit state passing
  of a `Metrics` record.
* The OpenAI SDK is an external collaborator: a blocking call is an oracle
  value `Except UpstreamError CompletionResult`; a streaming call is an
  oracle pair of a list of chunks received before the stream ends plus a
  termination (natural end, or the exception raised mid-iteration or at the
  opening call).  The three `except` clauses of main.py correspond to the
  three `UpstreamError` constructors.
* The `@limiter.limit` decorator (slowapi) wraps the whole endpoint handler:
  when the policy rejects, it raises `RateLimitExceeded` before the handler
  body runs, and the installed default handler answers with HTTP status 429
  ("too many requests").  The admit/reject decision itself is external
  (spec §2 RateLimitPolicy) and is passed in as a boolean.
-/

namespace LLMGateway

/-- ChatMessage (src/app/models.py lines 5-8). -/
structure ChatMessage where
  role : String
  content : String
deriving DecidableEq, Repr

/-- Token usage block as reported by the upstream provider and echoed in the
response (`usage` of src/app/main.py lines 114-118). -/
structure Usage where
  prompt_tokens : Nat
  completion_tokens : Nat
  total_tokens : Nat
deriving DecidableEq, Repr

/-- InferenceRequest after pydantic validation (src/app/models.py lines 10-15),
with the declared defaults already filled in. -/
structure InferenceRequest where
  messages : List ChatMessage
  max_tokens : Int
  temperature : ℚ
  stream : Bool
deriving DecidableEq, Repr

/-- InferenceResponse (src/app/models.py lines 32-38); `usage` is a dict with
exactly the three keys of `Usage` (src/app/main.py lines 114-118). -/
structure InferenceResponse where
  id : String
  model : String
  content : String
  finish_reason : String
  usage : Usage
deriving DecidableEq, Repr

/-- The pydantic validation layer for `InferenceRequest` (src/app/models.py
lines 10-15).  The declared constraints are: `messages` required (no length
constraint), `max_tokens` optional with default 500 (no range constraint),
`temperature` optional with default 0.7 and bounds `ge=0.0, le=2.0`,
`stream` optional with default False.  `none` models FastAPI answering 422
without invoking the endpoint handler. -/
def validate_request (messages : List ChatMessage) (max_tokens : Option Int)
    (temperature : Option ℚ) (stream : Option Bool) : Option InferenceRequest :=
  let t := temperature.getD (7 / 10)
  if 0 ≤ t ∧ t ≤ 2 then
    some { messages := messages, max_tokens := max_tokens.getD 500,
           temperature := t, stream := stream.getD false }
  else
    none

/-- The process-wide `metrics` dict (src/app/main.py lines 43-48). -/
structure Metrics where
  total_requests : Nat
  successful_requests : Nat
  failed_requests : Nat
  total_tokens : Nat
deriving DecidableEq, Repr

/-- Exceptions raised by the OpenAI SDK, as classified by the `except`
clauses of src/app/main.py: `openai.RateLimitError`, `openai.APIError`, and
any other `Exception`.  Each carries its `str(e)` payload, the raw
provider-side text. -/
inductive UpstreamError where
  | rateLimitError (msg : String)
  | apiError (msg : String)
  | otherError (msg : String)
deriving DecidableEq, Repr

/-- A successful upstream blocking completion: the fields the handler reads
from `response` (src/app/main.py lines 97-118). -/
structure CompletionResult where
  id : String
  model : String
  content : String
  finish_reason : String
  usage : Usage
deriving DecidableEq, Repr

/-- A FastAPI HTTPException as raised by the handlers: status code plus
caller-visible detail string. -/
structure HTTPError where
  status_code : Nat
  detail : String
deriving DecidableEq, Repr

/-- The keyword arguments of one `client.chat.completions.create` call
(src/app/main.py lines 89-95 and 147-153): the per-request fields forwarded
from the inbound request plus the literal `stream` flag. -/
structure UpstreamCall where
  messages : List ChatMessage
  max_tokens : Int
  temperature : ℚ
  stream : Bool
deriving DecidableEq, Repr

/-- Observable outcome of one invocation of the blocking endpoint:
the metrics state afterwards, the HTTP-level result, and the upstream call
made (`none` when the upstream dependency was never contacted). -/
structure BlockingOutcome where
  metrics : Metrics
  result : Except HTTPError InferenceResponse
  upstream_call : Option UpstreamCall
deriving Repr

/-- generate_inference handler body (src/app/main.py lines 66-134), i.e. the
code that runs once the rate-limit decorator has admitted the request.
`upstream` is the oracle behaviour of the `client.chat.completions.create`
call at line 89. -/
def generate_inference_body (req : InferenceRequest)
    (upstream : Except UpstreamError CompletionResult) (m : Metrics) :
    BlockingOutcome :=
  let m1 : Metrics := { m with total_requests := m.total_requests + 1 }
  if req.stream then
    { metrics := m1,
      result := .error ⟨400, "For streaming responses, use POST /v1/inference/stream"⟩,
      upstream_call := none }
  else
    let call : UpstreamCall := ⟨req.messages, req.max_tokens, req.temperature, false⟩
    match upstream with
    | .ok response =>
        let m2 : Metrics :=
          { m1 with
            successful_requests := m1.successful_requests + 1,
            total_tokens := m1.total_tokens + response.usage.total_tokens }
        let body : InferenceResponse :=
          ⟨response.id, response.model, response.content,
           response.finish_reason, response.usage⟩
        { metrics := m2, result := .ok body, upstream_call := some call }
    | .error e =>
        let m2 : Metrics := { m1 with failed_requests := m1.failed_requests + 1 }
        match e with
        | .rateLimitError _ =>
            { metrics := m2,
              result := .error ⟨429, "Rate limit exceeded at OpenAI"⟩,
              upstream_call := some call }
        | .apiError d =>
            { metrics := m2,
              result := .error ⟨502, "LLM service error: " ++ d⟩,
              upstream_call := some call }
        | .otherError _ =>
            { metrics := m2,
              result := .error ⟨500, "Internal server error"⟩,
              upstream_call := some call }

/-- Status answered by slowapi's installed `_rate_limit_exceeded_handler`
when the `@limiter.limit` decorator rejects (src/app/main.py lines 35-37):
HTTP 429, the "too many requests" status of spec §6. -/
def LOCAL_RATE_LIMIT_STATUS : Nat := 429

/-- The blocking endpoint POST /v1/inference as deployed: the
`@limiter.limit(settings.RATE_LIMIT)` decorator (src/app/main.py line 65)
checks the policy first and, on rejection, raises `RateLimitExceeded`
before the handler body ever runs, so none of the `metrics` updates inside
the body execute; the installed handler answers 429. -/
def generate_inference (admitted : Bool) (req : InferenceRequest)
    (upstream : Except UpstreamError CompletionResult) (m : Metrics) :
    BlockingOutcome :=
  if admitted then
    generate_inference_body req upstream m
  else
    { metrics := m,
      result := .error ⟨LOCAL_RATE_LIMIT_STATUS, "Rate limit exceeded: 10 per 1 minute"⟩,
      upstream_call := none }

/-- The `delta` object of one streamed choice (src/app/main.py line 159);
`content` is `None` or a string in the SDK. -/
structure Delta where
  content : Option String
deriving DecidableEq, Repr

/-- One element of `chunk.choices` (src/app/main.py line 158). -/
structure Choice where
  delta : Delta
deriving DecidableEq, Repr

/-- One chunk received from the upstream stream (src/app/main.py line 156). -/
structure Chunk where
  choices : List Choice
deriving DecidableEq, Repr

/-- How an upstream streaming call ends: natural completion of the iterator,
or an exception raised (at the opening `create` call or mid-iteration). -/
inductive StreamTermination where
  | done
  | errored (e : UpstreamError)
deriving DecidableEq, Repr

/-- The event (if any) that the loop body of src/app/main.py lines 156-162
yields for one received chunk: nothing when `chunk.choices` is empty or
`delta.content` is falsy (None or the empty string), otherwise the SSE line
carrying the delta text verbatim. -/
def chunkEvent (c : Chunk) : Option String :=
  match c.choices with
  | [] => none
  | choice :: _ =>
    match choice.delta.content with
    | none => none
    | some s => if s = "" then none else some ("data: " ++ s ++ "\n\n")

/-- The end-of-stream marker yielded at src/app/main.py line 165. -/
def DONE_EVENT : String := "data: [DONE]\n\n"

/-- The in-band terminal error event yielded by the `except` clauses of
src/app/main.py lines 170-183, one fixed shape per exception class; the
`openai.APIError` clause interpolates `str(e)` into the event text. -/
def errorEvent : UpstreamError → String
  | .rateLimitError _ => "data: [ERROR] Rate limit exceeded\n\n"
  | .apiError d => "data: [ERROR] LLM service error: " ++ d ++ "\n\n"
  | .otherError _ => "data: [ERROR] Internal server error\n\n"

/-- The single terminal event of a streaming sequence, by termination kind. -/
def terminalEvent : StreamTermination → String
  | .done => DONE_EVENT
  | .errored e => errorEvent e

/-- Observable outcome of one full run of the async generator
`stream_openai_response`: every string it yielded, in order, the metrics
state afterwards, and the arguments of the one `create` call it opened. -/
structure RelayOutcome where
  events : List String
  metrics : Metrics
  upstream_call : UpstreamCall
deriving Repr

/-- stream_openai_response (src/app/main.py lines 137-183), run to
exhaustion.  `chunks` are the chunks the iterator delivered before `term`
ended it: on `done` the loop finishes and the generator yields the [DONE]
marker then increments `successful_requests`; on `errored e` the matching
`except` clause increments `failed_requests` and yields one terminal error
event, after which the generator ends — the exception is swallowed, never
re-raised. -/
def stream_openai_response (req : InferenceRequest) (chunks : List Chunk)
    (term : StreamTermination) (m : Metrics) : RelayOutcome :=
  let call : UpstreamCall := ⟨req.messages, req.max_tokens, req.temperature, true⟩
  match term with
  | .done =>
      { events := chunks.filterMap chunkEvent ++ [DONE_EVENT],
        metrics := { m with successful_requests := m.successful_requests + 1 },
        upstream_call := call }
  | .errored e =>
      { events := chunks.filterMap chunkEvent ++ [errorEvent e],
        metrics := { m with failed_requests := m.failed_requests + 1 },
        upstream_call := call }

/-- Observable outcome of one invocation of the streaming endpoint.
`events` is `none` when the request was rejected at admission (the
StreamingResponse body never ran); `upstream_call` is `none` when the
upstream dependency was never contacted. -/
structure StreamingOutcome where
  metrics : Metrics
  events : Option (List String)
  upstream_call : Option UpstreamCall
deriving Repr

/-- generate_inference_stream (src/app/main.py lines 186-204) composed with
the consumption of its StreamingResponse body: behind the same
`@limiter.limit` decorator, the handler increments `total_requests` and
returns a StreamingResponse wrapping `stream_openai_response`; the handler
never reads `inference_request.stream`. -/
def generate_inference_stream (admitted : Bool) (req : InferenceRequest)
    (chunks : List Chunk) (term : StreamTermination) (m : Metrics) :
    StreamingOutcome :=
  if admitted then
    let m1 : Metrics := { m with total_requests := m.total_requests + 1 }
    let relay := stream_openai_response req chunks term m1
    { metrics := relay.metrics,
      events := some relay.events,
      upstream_call := some relay.upstream_call }
  else
    { metrics := m, events := none, upstream_call := none }

/-- The blocking endpoint including FastAPI's request-body validation:
`none` is a 422 validation rejection, produced before the handler (and so
before any upstream contact or metrics change). -/
def blocking_endpoint (admitted : Bool) (messages : List ChatMessage)
    (max_tokens : Option Int) (temperature : Option ℚ) (stream : Option Bool)
    (upstream : Except UpstreamError CompletionResult) (m : Metrics) :
    Option BlockingOutcome :=
  (validate_request messages max_tokens temperature stream).map
    (fun req => generate_inference admitted req upstream m)

/-- The streaming endpoint including FastAPI's request-body validation. -/
def streaming_endpoint (admitted : Bool) (messages : List ChatMessage)
    (max_tokens : Option Int) (temperature : Option ℚ) (stream : Option Bool)
    (chunks : List Chunk) (term : StreamTermination) (m : Metrics) :
    Option StreamingOutcome :=
  (validate_request messages max_tokens temperature stream).map
    (fun req => generate_inference_stream admitted req chunks term m)

/-- Status code of an endpoint result, when it is an error. -/
def resultStatus : Except HTTPError InferenceResponse → Option Nat
  | .error e => some e.status_code
  | .ok _ => none

/-- Caller-visible detail text of an endpoint result, when it is an error. -/
def resultDetail : Except HTTPError InferenceResponse → Option String
  | .error e => some e.detail
  | .ok _ => none

/-- Shared concrete fixtures for witnesses and counterexamples. -/
def m0 : Metrics := ⟨0, 0, 0, 0⟩

/-- The spec §8 example request: one user message "hi", max_tokens 10,
temperature 0.7, stream false. -/
def req_hi : InferenceRequest :=
  { messages := [⟨"user", "hi"⟩], max_tokens := 10, temperature := 7 / 10,
    stream := false }

/-- The example request with the stream flag set, for the blocking-endpoint
mode-rejection runs. -/
def req_hi_stream : InferenceRequest := { req_hi with stream := true }

/-- The spec §8 example upstream result. -/
def res_x1 : CompletionResult :=
  { id := "x1", model := "m", content := "hello", finish_reason := "stop",
    usage := ⟨3, 1, 4⟩ }

/-- C1 (counterexample): a request rejected by the rate-limit policy does NOT
increment `total_requests`.  The `@limiter.limit` decorator raises before the
handler body containing `metrics["total_requests"] += 1` ever runs, so a
rejected blocking request leaves every counter unchanged, refuting the
claim's "a request rejected by the rate-limit policy still increments
total_requests". -/
theorem C1_rejected_request_counterexample :
    (generate_inference false req_hi (.error (.otherError "boom")) m0).metrics = m0 ∧
    ¬ ((generate_inference false req_hi (.error (.otherError "boom")) m0).metrics.total_requests
        = m0.total_requests + 1) := by
  refine ⟨rfl, by decide⟩

/-- C1 (amended): for every ADMITTED invocation of the blocking or streaming
endpoint, `total_requests` is incremented exactly once, at admission,
regardless of downstream outcome; a request rejected by the rate-limit
policy increments no counter at all (in particular neither
`successful_requests` nor `failed_requests`), because the decorator rejects
before the handler body runs. -/
theorem C1_total_requests_at_admission (req : InferenceRequest)
    (up : Except UpstreamError CompletionResult) (chunks : List Chunk)
    (term : StreamTermination) (m : Metrics) :
    (generate_inference true req up m).metrics.total_requests = m.total_requests + 1 ∧
    (generate_inference_stream true req chunks term m).metrics.total_requests
      = m.total_requests + 1 ∧
    (generate_inference false req up m).metrics = m ∧
    (generate_inference_stream false req chunks term m).metrics = m := by
  refine ⟨?_, ?_, rfl, rfl⟩
  · obtain ⟨msgs, mt, t, st⟩ := req
    cases st
    · cases up with
      | ok r => rfl
      | error e => cases e <;> rfl
    · rfl
  · cases term <;> rfl

/-- C2: on a blocking request with `stream=false` whose upstream call
succeeds, the handler returns an InferenceResponse carrying the
upstream-assigned id, model and finish_reason verbatim (and the usage block
unchanged), increments `successful_requests` by exactly 1, and adds exactly
`usage.total_tokens` to `total_tokens` (src/app/main.py lines 97-119). -/
theorem C2_blocking_success (req : InferenceRequest) (res : CompletionResult)
    (m : Metrics) (h : req.stream = false) :
    generate_inference true req (.ok res) m =
      { metrics :=
          { m with
            total_requests := m.total_requests + 1,
            successful_requests := m.successful_requests + 1,
            total_tokens := m.total_tokens + res.usage.total_tokens },
        result := .ok ⟨res.id, res.model, res.content, res.finish_reason, res.usage⟩,
        upstream_call := some ⟨req.messages, req.max_tokens, req.temperature, false⟩ } := by
  obtain ⟨msgs, mt, t, st⟩ := req
  cases st
  · rfl
  · exact Bool.noConfusion h

/-- C2 witness: the spec §8 example run, evaluated concretely. -/
theorem C2_blocking_success_witness :
    generate_inference true req_hi (.ok res_x1) m0 =
      { metrics := ⟨1, 1, 0, 4⟩,
        result := .ok ⟨"x1", "m", "hello", "stop", ⟨3, 1, 4⟩⟩,
        upstream_call := some ⟨[⟨"user", "hi"⟩], 10, 7 / 10, false⟩ } :=
  C2_blocking_success req_hi res_x1 m0 rfl

/-- C3 (counterexample): when the upstream dependency fails with its
rate-limited category, the caller receives HTTP 429 — numerically the SAME
status slowapi answers for a local rate-limit rejection, and below the 5xx
bad-gateway class — refuting both the "bad-gateway-class" and the
"distinct" parts of the claim (src/app/main.py line 124 uses
status_code 429). -/
theorem C3_upstream_429_counterexample :
    resultStatus (generate_inference true req_hi (.error (.rateLimitError "prov")) m0).result
      = resultStatus (generate_inference false req_hi (.error (.rateLimitError "prov")) m0).result ∧
    resultStatus (generate_inference true req_hi (.error (.rateLimitError "prov")) m0).result
      = some LOCAL_RATE_LIMIT_STATUS ∧
    LOCAL_RATE_LIMIT_STATUS < 500 := by
  refine ⟨rfl, rfl, by decide⟩

/-- C3 (amended): on an upstream rate-limited failure of a blocking request,
the caller receives status 429 with detail "Rate limit exceeded at OpenAI"
— the same numeric status as a local rate-limit rejection and not a
bad-gateway-class (5xx) status — and `failed_requests` increases by exactly
1 while `successful_requests` is unchanged. -/
theorem C3_upstream_rate_limited (req : InferenceRequest) (s : String)
    (m : Metrics) (h : req.stream = false) :
    (generate_inference true req (.error (.rateLimitError s)) m).result
      = .error ⟨LOCAL_RATE_LIMIT_STATUS, "Rate limit exceeded at OpenAI"⟩ ∧
    (generate_inference true req (.error (.rateLimitError s)) m).metrics.failed_requests
      = m.failed_requests + 1 ∧
    (generate_inference true req (.error (.rateLimitError s)) m).metrics.successful_requests
      = m.successful_requests := by
  obtain ⟨msgs, mt, t, st⟩ := req
  cases st
  · exact ⟨rfl, rfl, rfl⟩
  · exact Bool.noConfusion h

/-- C3 amended witness: concrete upstream-throttled run. -/
theorem C3_upstream_rate_limited_witness :
    (generate_inference true req_hi (.error (.rateLimitError "prov")) m0).result
      = .error ⟨LOCAL_RATE_LIMIT_STATUS, "Rate limit exceeded at OpenAI"⟩ ∧
    (generate_inference true req_hi (.error (.rateLimitError "prov")) m0).metrics.failed_requests
      = m0.failed_requests + 1 ∧
    (generate_inference true req_hi (.error (.rateLimitError "prov")) m0).metrics.successful_requests
      = m0.successful_requests :=
  C3_upstream_rate_limited req_hi "prov" m0 rfl

/-- C4 (counterexample): an InferenceRequest with an EMPTY messages list and
an in-range temperature is NOT rejected by validation — the pydantic model
declares no length constraint on `messages` (src/app/models.py line 12) —
and is dispatched to the upstream dependency by both endpoints, refuting
the claim that empty-message requests are rejected before dispatch. -/
theorem C4_empty_messages_counterexample :
    (blocking_endpoint true [] (some 10) (some (7 / 10)) (some false)
        (.ok res_x1) m0).map (fun o => o.upstream_call)
      = some (some ⟨[], 10, 7 / 10, false⟩) ∧
    (streaming_endpoint true [] (some 10) (some (7 / 10)) (some false)
        [] .done m0).map (fun o => o.upstream_call)
      = some (some ⟨[], 10, 7 / 10, true⟩) := by
  have h710 : ((0 : ℚ) ≤ 7 / 10 ∧ (7 : ℚ) / 10 ≤ 2) := by constructor <;> norm_num
  have hv : validate_request [] (some 10) (some (7 / 10)) (some false)
      = some ⟨[], 10, 7 / 10, false⟩ := by
    simp [validate_request, h710]
  constructor
  · simp only [blocking_endpoint, hv, Option.map]
    rfl
  · simp only [streaming_endpoint, hv, Option.map]
    rfl

/-- C4 (amended): a request whose temperature lies outside the closed range
[0, 2] is rejected by validation before any dispatch at both endpoints
(`ge=0.0, le=2.0` in src/app/models.py line 14); an empty messages list,
however, passes validation. -/
theorem C4_temperature_validation :
    (∀ (messages : List ChatMessage) (mt : Option Int) (t : ℚ) (s : Option Bool)
       (adm : Bool) (up : Except UpstreamError CompletionResult)
       (chunks : List Chunk) (term : StreamTermination) (m : Metrics),
       ¬ (0 ≤ t ∧ t ≤ 2) →
       blocking_endpoint adm messages mt (some t) s up m = none ∧
       streaming_endpoint adm messages mt (some t) s chunks term m = none) ∧
    (∀ (mt : Option Int) (s : Option Bool),
       (validate_request [] mt none s).isSome = true) := by
  constructor
  · intro messages mt t s adm up chunks term m h
    have hv : validate_request messages mt (some t) s = none := by
      simp [validate_request, h]
    constructor <;> simp [blocking_endpoint, streaming_endpoint, hv]
  · intro mt s
    have h710 : ((0 : ℚ) ≤ 7 / 10 ∧ (7 : ℚ) / 10 ≤ 2) := by constructor <;> norm_num
    simp [validate_request, h710]

/-- C4 amended witness: temperature 3 is rejected by both endpoints; the
empty-messages request with the default temperature passes validation. -/
theorem C4_temperature_validation_witness :
    (blocking_endpoint true [] none (some 3) none (.ok res_x1) m0 = none ∧
     streaming_endpoint true [] none (some 3) none [] .done m0 = none) ∧
    (validate_request [] none none none).isSome = true :=
  ⟨C4_temperature_validation.1 [] none 3 none true (.ok res_x1) [] .done m0
      (by norm_num),
   C4_temperature_validation.2 none none⟩

/-- C5: a streaming sequence that fails with an upstream error after k ≥ 0
received chunks produces exactly the relayed content events followed by ONE
terminal error event, with nothing after it; `failed_requests` increases by
exactly 1 and no other counter changes.  The generator swallows the
exception (src/app/main.py lines 170-183): the outcome below is a normally
returned value, so no exception propagates upward. -/
theorem C5_streaming_error (req : InferenceRequest) (chunks : List Chunk)
    (e : UpstreamError) (m : Metrics) :
    (stream_openai_response req chunks (.errored e) m).events
      = chunks.filterMap chunkEvent ++ [errorEvent e] ∧
    (stream_openai_response req chunks (.errored e) m).metrics
      = { m with failed_requests := m.failed_requests + 1 } :=
  ⟨rfl, rfl⟩

/-- C6: a streaming sequence that completes naturally produces exactly the
relayed content events followed by ONE terminal done marker as the last
event, and `successful_requests` increases by exactly 1, once, at the end
(src/app/main.py lines 156-168); with zero received chunks the sequence is
just the done marker. -/
theorem C6_streaming_done (req : InferenceRequest) (chunks : List Chunk)
    (m : Metrics) :
    (stream_openai_response req chunks .done m).events
      = chunks.filterMap chunkEvent ++ [DONE_EVENT] ∧
    (stream_openai_response req chunks .done m).metrics
      = { m with successful_requests := m.successful_requests + 1 } ∧
    (stream_openai_response req [] .done m).events = [DONE_EVENT] :=
  ⟨rfl, rfl, rfl⟩

/-- C7: the relay emits one caller event per received chunk whose first
choice carries non-empty text, in the exact order received (the event list
is the order-preserving filterMap of the chunk list), carrying the text
verbatim inside the SSE frame; chunks with no choices, a None delta, or
empty text produce no event (src/app/main.py lines 156-162). -/
theorem C7_fragment_relay (req : InferenceRequest) (chunks : List Chunk)
    (term : StreamTermination) (m : Metrics) (s : String) (rest : List Choice) :
    (stream_openai_response req chunks term m).events
      = chunks.filterMap chunkEvent ++ [terminalEvent term] ∧
    chunkEvent ⟨Choice.mk (Delta.mk (some s)) :: rest⟩
      = (if s = "" then none else some ("data: " ++ s ++ "\n\n")) ∧
    chunkEvent ⟨Choice.mk (Delta.mk none) :: rest⟩ = none ∧
    chunkEvent ⟨[]⟩ = none := by
  refine ⟨?_, rfl, rfl, rfl⟩
  cases term <;> rfl

/-- C8: a blocking request with `stream=true` is answered with the 400
client error directing to the streaming endpoint, the upstream dependency
is never contacted, and neither `successful_requests` nor `failed_requests`
changes (the HTTPException is raised at src/app/main.py lines 79-83,
before the try block, so no except clause runs). -/
theorem C8_stream_true_blocking (req : InferenceRequest)
    (up : Except UpstreamError CompletionResult) (m : Metrics)
    (h : req.stream = true) :
    generate_inference true req up m =
      { metrics := { m with total_requests := m.total_requests + 1 },
        result := .error ⟨400, "For streaming responses, use POST /v1/inference/stream"⟩,
        upstream_call := none } := by
  obtain ⟨msgs, mt, t, st⟩ := req
  cases st
  · exact Bool.noConfusion h
  · rfl

/-- C8 witness: concrete `stream=true` request against the blocking
endpoint. -/
theorem C8_stream_true_blocking_witness :
    generate_inference true req_hi_stream (.ok res_x1) m0 =
      { metrics := ⟨1, 0, 0, 0⟩,
        result := .error ⟨400, "For streaming responses, use POST /v1/inference/stream"⟩,
        upstream_call := none } :=
  C8_stream_true_blocking req_hi_stream (.ok res_x1) m0 rfl

/-- C9 (counterexample): the `openai.APIError` branches interpolate
`str(e)` — the raw upstream error text — into the caller-visible detail
(src/app/main.py line 129) and into the in-band streaming error event
(line 178), so the caller-visible failure text is NOT limited to
pre-sanitized messages: it varies with, and embeds verbatim, the raw
upstream payload. -/
theorem C9_raw_upstream_leak_counterexample :
    resultDetail (generate_inference true req_hi
        (.error (.apiError "raw upstream body S3CR3T")) m0).result
      = some ("LLM service error: " ++ "raw upstream body S3CR3T") ∧
    (stream_openai_response req_hi []
        (.errored (.apiError "raw upstream body S3CR3T")) m0).events
      = ["data: [ERROR] LLM service error: raw upstream body S3CR3T\n\n"] ∧
    resultDetail (generate_inference true req_hi (.error (.apiError "A")) m0).result
      ≠ resultDetail (generate_inference true req_hi (.error (.apiError "B")) m0).result := by
  refine ⟨rfl, rfl, by decide⟩

/-- C9 (amended): the upstream-rate-limited and unclassified-fault branches
answer with fixed, payload-independent sanitized messages, in blocking mode
and as streaming error events; the `openai.APIError` branch, however,
embeds the upstream exception text `str(e)` verbatim in the caller-visible
message in both modes. -/
theorem C9_error_text_sanitization (req : InferenceRequest) (d : String)
    (m : Metrics) (h : req.stream = false) :
    resultDetail (generate_inference true req (.error (.rateLimitError d)) m).result
      = some "Rate limit exceeded at OpenAI" ∧
    resultDetail (generate_inference true req (.error (.otherError d)) m).result
      = some "Internal server error" ∧
    resultDetail (generate_inference true req (.error (.apiError d)) m).result
      = some ("LLM service error: " ++ d) ∧
    errorEvent (.rateLimitError d) = "data: [ERROR] Rate limit exceeded\n\n" ∧
    errorEvent (.otherError d) = "data: [ERROR] Internal server error\n\n" ∧
    errorEvent (.apiError d) = "data: [ERROR] LLM service error: " ++ d ++ "\n\n" := by
  obtain ⟨msgs, mt, t, st⟩ := req
  cases st
  · exact ⟨rfl, rfl, rfl, rfl, rfl, rfl⟩
  · exact Bool.noConfusion h

/-- C9 amended witness: concrete payload "X". -/
theorem C9_error_text_sanitization_witness :
    resultDetail (generate_inference true req_hi (.error (.rateLimitError "X")) m0).result
      = some "Rate limit exceeded at OpenAI" ∧
    resultDetail (generate_inference true req_hi (.error (.otherError "X")) m0).result
      = some "Internal server error" ∧
    resultDetail (generate_inference true req_hi (.error (.apiError "X")) m0).result
      = some ("LLM service error: " ++ "X") ∧
    errorEvent (.rateLimitError "X") = "data: [ERROR] Rate limit exceeded\n\n" ∧
    errorEvent (.otherError "X") = "data: [ERROR] Internal server error\n\n" ∧
    errorEvent (.apiError "X") = "data: [ERROR] LLM service error: " ++ "X" ++ "\n\n" :=
  C9_error_text_sanitization req_hi "X" m0 rfl

/-- C10: the streaming endpoint never reads the request's `stream` field —
its whole observable outcome is unchanged when that field is flipped — the
upstream call it opens always has the literal `stream=True`
(src/app/main.py line 152), and its response body is exactly the relayed
event sequence. -/
theorem C10_stream_flag_ignored (req : InferenceRequest) (b : Bool)
    (chunks : List Chunk) (term : StreamTermination) (m : Metrics) :
    generate_inference_stream true { req with stream := b } chunks term m
      = generate_inference_stream true req chunks term m ∧
    (generate_inference_stream true req chunks term m).upstream_call
      = some ⟨req.messages, req.max_tokens, req.temperature, true⟩ ∧
    (generate_inference_stream true req chunks term m).events
      = some ((stream_openai_response req chunks term
          { m with total_requests := m.total_requests + 1 }).events) := by
  refine ⟨?_, ?_, ?_⟩ <;> cases term <;> rfl

end LLMGateway
